import Mathlib

/-!
Verification of the session/request lifecycle core of a Windows
kernel-mode HTTP listener binding (`src/http.rs`, `src/support.rs`).

The embedding models every kernel call as an event in a trace, and the
kernel's responses (error codes, allocated identifiers, handle values) as
an oracle record `Kernel` supplied to each operation.  Each Rust function
is translated into a Lean function returning the trace of kernel calls it
performs together with its result, following the source line by line.
-/

namespace HttpSvc

/-- One kernel API call, as recorded in a trace.  Arguments that matter to
the properties (object identifiers, handle values) are recorded with the
event. -/
inductive KCall where
  | httpInitialize
  | httpCreateServerSession
  | httpCreateUrlGroup (session : Nat)
  | httpCreateRequestQueue (named : Bool) (flags : Nat)
  | httpSetUrlGroupProperty (urls : Nat)
  | httpAddUrlToUrlGroup (urls : Nat)
  | httpCloseUrlGroup (urls : Nat)
  | httpCloseServerSession (session : Nat)
  | closeHandle (h : Int)
  | duplicateHandle
  | bindIoCall (h : Int)
  | cancelIoCall (h : Int)
  deriving DecidableEq, Repr

/-- Oracle for the kernel's responses: the error code each call would
return and the identifiers/handles it would produce on success.  A run of
an operation under a fixed `Kernel` is one concrete execution of the Rust
code. -/
structure Kernel where
  initErr : Nat
  sessionErr : Nat
  sessionId : Nat
  urlGroupErr : Nat
  urlGroupId : Nat
  queueErr : Nat
  queueHandle : Int
  bindErr : Nat
  addUrlErr : Nat
  dupOk : Bool
  dupHandle : Int
  bindIoOk : Bool
  lastError : Nat
  deriving DecidableEq, Repr

/-- `WinError(call, code)`: the structured error of the binding, carrying
the name of the underlying call and its native code. -/
structure WinError where
  call : String
  code : Nat
  deriving DecidableEq, Repr

/-- Flag constants from the Windows HTTP API (`http.h`). -/
def HTTP_CREATE_REQUEST_QUEUE_FLAG_OPEN_EXISTING : Nat := 1

def HTTP_CREATE_REQUEST_QUEUE_FLAG_CONTROLLER : Nat := 2

/-- The `Session` struct of `src/http.rs`: idempotent-close guard
(`active`, an `AtomicBool` starting `false`), controller flag, queue
handle, server-session id and URL-group id. -/
structure Session where
  active : Bool
  controller : Bool
  queue : Int
  session : Nat
  urls : Nat
  deriving DecidableEq, Repr

/-- `Session::create` (src/http.rs lines 32-91): initializes the HTTP
subsystem, creates a server session, a URL group and a request queue
(named and with the controller flag iff `name` is given), then binds the
queue to the URL group.  Each failure path performs the release calls the
source performs, in the source's order, before returning the error. -/
def Session.create (k : Kernel) (name : Option String) : List KCall × Except WinError Session :=
  let controller := name.isSome
  let flags := if name.isSome then HTTP_CREATE_REQUEST_QUEUE_FLAG_CONTROLLER else 0
  let t0 := [KCall.httpInitialize]
  if k.initErr ≠ 0 then
    (t0, Except.error ⟨"HttpInitialize", k.initErr⟩)
  else
    let t1 := t0 ++ [KCall.httpCreateServerSession]
    if k.sessionErr ≠ 0 then
      (t1, Except.error ⟨"HttpCreateServerSession", k.sessionErr⟩)
    else
      let session := k.sessionId
      let t2 := t1 ++ [KCall.httpCreateUrlGroup session]
      if k.urlGroupErr ≠ 0 then
        (t2 ++ [KCall.httpCloseServerSession session],
         Except.error ⟨"HttpCreateUrlGroup", k.urlGroupErr⟩)
      else
        let urls := k.urlGroupId
        let t3 := t2 ++ [KCall.httpCreateRequestQueue controller flags]
        if k.queueErr ≠ 0 then
          (t3 ++ [KCall.httpCloseServerSession session, KCall.httpCloseUrlGroup urls],
           Except.error ⟨"HttpCreateRequestQueue", k.queueErr⟩)
        else
          let queue := k.queueHandle
          let t4 := t3 ++ [KCall.httpSetUrlGroupProperty urls]
          if k.bindErr ≠ 0 then
            (t4 ++ [KCall.httpCloseUrlGroup urls, KCall.httpCloseServerSession session,
                    KCall.closeHandle queue],
             Except.error ⟨"HttpSetUrlGroupProperty", k.bindErr⟩)
          else
            (t4, Except.ok ⟨false, controller, queue, session, urls⟩)

/-- `Session::open` (src/http.rs lines 93-113): initializes the HTTP
subsystem and opens an existing named queue; the resulting session is not
a controller and stores 0 for both the server-session and URL-group
ids. -/
def Session.openExisting (k : Kernel) (_name : String) : List KCall × Except WinError Session :=
  let t0 := [KCall.httpInitialize]
  if k.initErr ≠ 0 then
    (t0, Except.error ⟨"HttpInitialize", k.initErr⟩)
  else
    let t1 := t0 ++ [KCall.httpCreateRequestQueue true HTTP_CREATE_REQUEST_QUEUE_FLAG_OPEN_EXISTING]
    if k.queueErr ≠ 0 then
      (t1, Except.error ⟨"HttpCreateRequestQueue", k.queueErr⟩)
    else
      (t1, Except.ok ⟨false, false, k.queueHandle, 0, 0⟩)

/-- `Session::listen` (src/http.rs lines 115-125): registers a URL with
the session's URL group via `HttpAddUrlToUrlGroup`; on failure returns an
error labelled `"HttpSetUrlGroupProperty"`, exactly as the source does. -/
def Session.listen (k : Kernel) (s : Session) (_url : String) : List KCall × Except WinError Unit :=
  let t := [KCall.httpAddUrlToUrlGroup s.urls]
  if k.addUrlErr ≠ 0 then
    (t, Except.error ⟨"HttpSetUrlGroupProperty", k.addUrlErr⟩)
  else
    (t, Except.ok ())

/-- `Session::close` (src/http.rs lines 145-153): `active.swap(true)`
returns the previous value; only when it was `false` are the release
calls performed, in the source's order: URL group, server session, queue
handle. -/
def Session.close (s : Session) : Session × List KCall :=
  if s.active then
    ({ s with active := true }, [])
  else
    ({ s with active := true },
     [KCall.httpCloseUrlGroup s.urls, KCall.httpCloseServerSession s.session,
      KCall.closeHandle s.queue])

/-- A sequence of `n` `Session::close` calls on one session, collecting
the concatenated kernel-call trace.  The implicit close performed by
`Drop for Session` (src/http.rs lines 156-160) is just one more `close`
call in the sequence. -/
def Session.closeN : Session → Nat → Session × List KCall
  | s, 0 => (s, [])
  | s, n + 1 =>
    let p := s.close
    let q := p.1.closeN n
    (q.1, p.2 ++ q.2)

/-- The `Request` struct of `src/http.rs`: it holds (a counted reference
to) the duplicated, completion-port-bound queue handle. -/
structure RequestS where
  handle : Int
  deriving DecidableEq, Repr

/-- Modelled from the spec: `bind_io` (defined in the repository's
`win32.rs`, which is not under `src/`) enrolls a handle with the
platform's I/O completion mechanism (`BindIoCompletionCallback`) and
reports success or failure; enrollment performs no release of the handle
itself. -/
def bind_io (k : Kernel) (h : Int) : List KCall × Bool :=
  ([KCall.bindIoCall h], k.bindIoOk)

/-- `Session::request` (src/http.rs lines 127-143): duplicates the queue
handle; on duplication failure returns an error; otherwise enrolls the
duplicate via `bind_io` and on enrollment failure returns an error — the
source performs no `CloseHandle` on either failure path. -/
def Session.request (k : Kernel) (_s : Session) : List KCall × Except WinError RequestS :=
  let t0 := [KCall.duplicateHandle]
  if !k.dupOk then
    (t0, Except.error ⟨"DuplicateHandle", k.lastError⟩)
  else
    let q := k.dupHandle
    let b := bind_io k q
    let t1 := t0 ++ b.1
    if !b.2 then
      (t1, Except.error ⟨"BindIoCompletionCallback", k.lastError⟩)
    else
      (t1, Except.ok ⟨q⟩)

/-- `Request::close` (src/http.rs lines 192-197): cancels outstanding
overlapped I/O on the Request's handle via `CancelIo`; nothing else. -/
def RequestS.close (r : RequestS) : List KCall :=
  [KCall.cancelIoCall r.handle]

/-- `Drop for Request` (src/http.rs lines 199-203) calls `close`. -/
def RequestS.drop (r : RequestS) : List KCall :=
  r.close

/-! ### `Event` from `src/support.rs` (lines 73-114)

The event's state is the `Option<bool>` inside its mutex; `None` means
unset.  In the sequential model, `set` and `wait` act on that state. -/

/-- `Event::set` (src/support.rs lines 86-97): if a value is already
stored, return `false` and leave the state unchanged; otherwise store the
value and return `true`. -/
def Event.set (st : Option Bool) (v : Bool) : Bool × Option Bool :=
  match st with
  | some w => (false, some w)
  | none => (true, some v)

/-- `Event::wait` (src/support.rs lines 99-113): returns the stored value
when one is set; when the state is unset the caller blocks on the condition
variable until a `set` stores one, so `wait` yields no value (`none`) in
that case of the sequential model. -/
def Event.wait (st : Option Bool) : Option Bool :=
  st

/-- A sequence of `set` calls applied in order from a starting state,
collecting each call's returned boolean and the final state. -/
def Event.runSets : Option Bool → List Bool → List Bool × Option Bool
  | st, [] => ([], st)
  | st, v :: rest =>
    let p := Event.set st v
    let q := Event.runSets p.2 rest
    (p.1 :: q.1, q.2)

/-! ### Host-runtime glue (`src/support.rs` argument handling and the
head-result translation of `src/http.rs`) -/

/-- A JavaScript argument as seen by `opt_arg_at`: `undefined`, a value
of the expected type (here a string), or a value of some other type. -/
inductive JsArg where
  | undef
  | str (s : String)
  | other
  deriving DecidableEq, Repr

/-- `opt_arg_at::<JsString>` (src/support.rs lines 138-146): if the
argument at index `i` is present and is not `undefined`, downcast it
(throwing on a wrong type); otherwise return `None`. -/
def opt_arg_at (args : List JsArg) (i : Nat) : Except String (Option String) :=
  match args.get? i with
  | none => Except.ok none
  | some JsArg.undef => Except.ok none
  | some (JsArg.str s) => Except.ok (some s)
  | some JsArg.other => Except.error "failed to downcast"

/-- `http_session_create` (src/http.rs lines 211-223): reads the optional
name argument with `opt_arg_at` and calls `Session::create` with it;
an argument-type error propagates as a throw. -/
def http_session_create (k : Kernel) (args : List JsArg) :
    Except String (List KCall × Except WinError Session) :=
  match opt_arg_at args 0 with
  | Except.error e => Except.error e
  | Except.ok nameOpt => Except.ok (Session.create k nameOpt)

/-- A JavaScript value stored in the translated result object. -/
inductive JVal where
  | num (n : Nat)
  | str (s : String)
  | boolean (b : Bool)
  | boxed (n : Nat)
  deriving DecidableEq, Repr

/-- The result object built by the glue layer: the sequence of
`obj.set(key, value)` assignments in order. -/
def JObj := List (String × JVal)

/-- One `obj.set(&mut cx, key, value)` call. -/
def jset (obj : JObj) (k : String) (v : JVal) : JObj :=
  List.append obj [(k, v)]

/-- Property lookup on the finished object: the last assignment to the
key wins, as in JavaScript. -/
def jget (obj : JObj) (k : String) : Option JVal :=
  List.foldl (fun acc p => if p.1 = k then some p.2 else acc) none obj

/-- The decoded fields of an `HTTP_REQUEST_V2` head used by the
translation in `http_request_receive`, together with the operation's
error code and more-data flag (the `OverlappedResult` fields). -/
structure HeadResult where
  err : Nat
  more : Bool
  requestId : Nat
  verb : Nat
  versionMajor : Nat
  versionMinor : Nat
  customVerb : Option String
  rawUrl : Option String
  knownHeaders : List (Option String)
  unknownHeaders : List (String × String)
  deriving Repr

/-- The head-result translation of `http_request_receive` (src/http.rs
lines 280-353), mirroring the source's sequence of `obj.set` calls: it
writes `code` and `more`; stops there on a nonzero code; writes `id`;
stops there when `more`; then writes the numeric verb under the key
`"verb"`, then the version string `"major.minor"` again under the key
`"verb"`, then the optional `customVerb` and `url`, the known headers
under `k_i` keys and the unknown headers under `u_name` keys. -/
def translateHead (r : HeadResult) : JObj :=
  let obj := jset [] "code" (JVal.num r.err)
  let obj := jset obj "more" (JVal.boolean r.more)
  if r.err ≠ 0 then obj
  else
    let obj := jset obj "id" (JVal.boxed r.requestId)
    if r.more then obj
    else
      let obj := jset obj "verb" (JVal.num r.verb)
      let verStr := toString r.versionMajor ++ "." ++ toString r.versionMinor
      let obj := jset obj "verb" (JVal.str verStr)
      let obj := match r.customVerb with
        | some v => jset obj "customVerb" (JVal.str v)
        | none => obj
      let obj := match r.rawUrl with
        | some v => jset obj "url" (JVal.str v)
        | none => obj
      let obj := List.foldl
        (fun acc p => match p.2 with
          | some v => jset acc ("k_" ++ toString p.1) (JVal.str v)
          | none => acc)
        obj r.knownHeaders.enum
      List.foldl
        (fun acc p =>
          if p.1.length > 0 && p.2.length > 0 then
            jset acc ("u_" ++ p.1) (JVal.str p.2)
          else acc)
        obj r.unknownHeaders

/-! ### Auxiliary definitions for the theorems -/

/-- Whether a kernel call releases a resource (URL group, server session
or handle). -/
def isRelease : KCall → Bool
  | KCall.httpCloseUrlGroup _ => true
  | KCall.httpCloseServerSession _ => true
  | KCall.closeHandle _ => true
  | _ => false

/-- The release calls occurring in a trace, in order. -/
def releasesOf (t : List KCall) : List KCall :=
  t.filter isRelease

/-- Stated from the spec's rollback requirement, for comparison with the
trace the source produces: the release calls of the kernel resources a
failing `Session::create` run has already created, listed in order of
creation (server session first, then URL group, then queue handle).  The
last branch covers the successful run, where all three exist. -/
def createdReleasesInOrder (k : Kernel) : List KCall :=
  if k.initErr ≠ 0 then []
  else if k.sessionErr ≠ 0 then []
  else if k.urlGroupErr ≠ 0 then [KCall.httpCloseServerSession k.sessionId]
  else if k.queueErr ≠ 0 then
    [KCall.httpCloseServerSession k.sessionId, KCall.httpCloseUrlGroup k.urlGroupId]
  else if k.bindErr ≠ 0 then
    [KCall.httpCloseServerSession k.sessionId, KCall.httpCloseUrlGroup k.urlGroupId,
     KCall.closeHandle k.queueHandle]
  else
    [KCall.httpCloseServerSession k.sessionId, KCall.httpCloseUrlGroup k.urlGroupId,
     KCall.closeHandle k.queueHandle]

/-- A kernel oracle under which every call succeeds; ids 7 and 9, queue
handle 3, duplicated handle 11. -/
def kAllOk : Kernel :=
  ⟨0, 0, 7, 0, 9, 0, 3, 0, 0, true, 11, true, 0⟩

/-- A kernel oracle under which `HttpCreateRequestQueue` fails with
code 1 and everything before it succeeds. -/
def kQueueFail : Kernel :=
  ⟨0, 0, 7, 0, 9, 1, 3, 0, 0, true, 11, true, 0⟩

/-- A kernel oracle under which `HttpSetUrlGroupProperty` fails with
code 1 and everything before it succeeds. -/
def kBindFail : Kernel :=
  ⟨0, 0, 7, 0, 9, 0, 3, 1, 0, true, 11, true, 0⟩

/-- A kernel oracle under which `DuplicateHandle` succeeds (handle 11)
and `bind_io` fails with last error 87. -/
def kBindIoFail : Kernel :=
  ⟨0, 0, 7, 0, 9, 0, 3, 0, 0, true, 11, false, 87⟩

/-- A kernel oracle under which `HttpAddUrlToUrlGroup` fails with
code 5 and everything else succeeds. -/
def kAddUrlFail : Kernel :=
  ⟨0, 0, 7, 0, 9, 0, 3, 0, 5, true, 11, true, 0⟩

/-- The controller session `Session::create kAllOk (some _)` produces. -/
def sessionExample : Session :=
  ⟨false, true, 3, 7, 9⟩

/-- Once a session's close guard is set, further `close` calls perform no
kernel calls at all. -/
theorem closeN_active_trace_nil (n : Nat) :
    ∀ s : Session, s.active = true → (s.closeN n).2 = [] := by
  induction n with
  | zero => intro s _; rfl
  | succ n ih =>
    intro s h
    simp only [Session.closeN, Session.close, h, if_true]
    exact ih _ rfl

/-! ### Claim theorems -/

/-- Claim C1: for every sequence of one or more `Session::close` calls on
one session whose guard is still unset (as produced by `create`/`open`,
and with the implicit `Drop` close being just one more call), the
concatenated kernel-call trace consists of exactly one `HttpCloseUrlGroup`,
one `HttpCloseServerSession` and one `CloseHandle` on the queue, in that
order. -/
theorem session_close_releases_exactly_once (s : Session) (h : s.active = false) (n : Nat) :
    (s.closeN (n + 1)).2 =
      [KCall.httpCloseUrlGroup s.urls, KCall.httpCloseServerSession s.session,
       KCall.closeHandle s.queue] := by
  simp only [Session.closeN, Session.close, h, if_false, Bool.false_eq_true]
  rw [closeN_active_trace_nil n _ rfl]
  simp

/-- Witness for C1: three close calls (two explicit plus the drop) on a
fresh controller session release each resource exactly once, in order. -/
theorem session_close_releases_exactly_once_witness :
    (Session.closeN ⟨false, true, 3, 7, 9⟩ 3).2 =
      [KCall.httpCloseUrlGroup 9, KCall.httpCloseServerSession 7, KCall.closeHandle 3] :=
  session_close_releases_exactly_once ⟨false, true, 3, 7, 9⟩ rfl 2

/-- Claim C4: `Request::close` performs exactly one kernel call,
`CancelIo` on the Request's duplicated handle; its trace contains no
`CloseHandle` (so the handle stays open), and `Drop for Request` does the
same. -/
theorem request_close_only_cancels (r : RequestS) :
    r.close = [KCall.cancelIoCall r.handle] ∧
    (r.close.filter isRelease) = [] ∧
    r.drop = r.close := by
  refine ⟨rfl, ?_, rfl⟩
  simp [RequestS.close, isRelease]

/-- Claim C9: running any nonempty sequence of `Event::set` calls from
the unset state, the first call stores its value and returns `true`,
every later call returns `false`, the stored value stays the first one,
and `wait` after the successful set returns that value. -/
theorem event_write_once (v : Bool) (rest : List Bool) :
    Event.runSets none (v :: rest) = (true :: rest.map (fun _ => false), some v) ∧
    Event.wait (some v) = some v := by
  have hset : ∀ (l : List Bool) (w : Bool),
      Event.runSets (some w) l = (l.map (fun _ => false), some w) := by
    intro l
    induction l with
    | nil => intro w; rfl
    | cons x xs ih =>
      intro w
      simp [Event.runSets, Event.set, ih]
  refine ⟨?_, rfl⟩
  simp [Event.runSets, Event.set, hset]

/-- Claim C10: an argument explicitly passed as `undefined` is treated
exactly like an absent argument: `opt_arg_at` returns `None` in both
cases, and `http_session_create` called with `undefined` as the name
behaves identically to calling it with no arguments. -/
theorem undefined_arg_same_as_absent :
    (∀ (args : List JsArg) (i : Nat),
      args.get? i = some JsArg.undef → opt_arg_at args i = Except.ok none) ∧
    (∀ (args : List JsArg) (i : Nat),
      args.get? i = none → opt_arg_at args i = Except.ok none) ∧
    (∀ k : Kernel, http_session_create k [JsArg.undef] = http_session_create k []) := by
  refine ⟨?_, ?_, ?_⟩
  · intro args i h
    rw [List.get?_eq_getElem?] at h
    simp [opt_arg_at, h]
  · intro args i h
    rw [List.get?_eq_getElem?] at h
    simp [opt_arg_at, h]
  · intro k
    rfl

/-- Witness for C10: concrete argument lists at index 0, and a concrete
kernel oracle. -/
theorem undefined_arg_same_as_absent_witness :
    opt_arg_at [JsArg.undef] 0 = Except.ok none ∧
    opt_arg_at [] 0 = Except.ok none ∧
    http_session_create kAllOk [JsArg.undef] = http_session_create kAllOk [] :=
  ⟨undefined_arg_same_as_absent.1 [JsArg.undef] 0 rfl,
   undefined_arg_same_as_absent.2.1 [] 0 rfl,
   undefined_arg_same_as_absent.2.2 kAllOk⟩

/-- Claim C2, counterexample: under `kQueueFail` (request-queue creation
fails after server session 7 and URL group 9 were created), `create`
returns the error after releasing the server session *before* the URL
group — the opposite of reverse creation order, refuting the claim as
stated. -/
theorem create_rollback_not_reverse_order :
    (Session.create kQueueFail none).2 =
      Except.error ⟨"HttpCreateRequestQueue", 1⟩ ∧
    releasesOf (Session.create kQueueFail none).1 =
      [KCall.httpCloseServerSession 7, KCall.httpCloseUrlGroup 9] ∧
    releasesOf (Session.create kQueueFail none).1 ≠
      (createdReleasesInOrder kQueueFail).reverse := by
  refine ⟨rfl, rfl, by decide⟩

/-- Claim C2 as amended: on every failing run of `Session::create`, the
release calls in the trace are a permutation of the release calls of the
resources created so far — everything created is released exactly once
before the error returns, though not always in reverse creation order. -/
theorem create_failure_releases_all_created (k : Kernel) (name : Option String)
    (e : WinError) (h : (Session.create k name).2 = Except.error e) :
    List.Perm (releasesOf (Session.create k name).1) (createdReleasesInOrder k) := by
  simp only [Session.create, createdReleasesInOrder] at h ⊢
  split_ifs at h ⊢
  all_goals try simp_all [releasesOf, isRelease]
  all_goals first
    | exact List.Perm.refl _
    | exact List.Perm.swap _ _ _

/-- Witness for the amended C2: under `kBindFail` the releases of the
failing run are a permutation of the created resources' releases. -/
theorem create_failure_releases_all_created_witness :
    List.Perm (releasesOf (Session.create kBindFail none).1)
      (createdReleasesInOrder kBindFail) :=
  create_failure_releases_all_created kBindFail none
    ⟨"HttpSetUrlGroupProperty", 1⟩ rfl

/-- Claim C3, evaluated at the failing input: under `kBindIoFail`
(`DuplicateHandle` succeeds producing handle 11, enrollment fails with
last error 87), `Session::request` returns the error with the duplicated
handle still open — its trace contains no `CloseHandle 11`, so the
duplicated handle leaks, contradicting the claim. -/
theorem request_bind_failure_leaks_handle :
    (Session.request kBindIoFail sessionExample).2 =
      Except.error ⟨"BindIoCompletionCallback", 87⟩ ∧
    (Session.request kBindIoFail sessionExample).1 =
      [KCall.duplicateHandle, KCall.bindIoCall 11] ∧
    KCall.closeHandle 11 ∉ (Session.request kBindIoFail sessionExample).1 := by
  refine ⟨rfl, rfl, by decide⟩

/-- Claim C5, counterexample: under `kAllOk`, `Session::create none`
succeeds with `controller = false` yet stores the kernel-assigned
session id 7 and URL-group id 9 — refuting "controller = false implies
both ids are 0". -/
theorem create_unnamed_noncontroller_nonzero_ids :
    (Session.create kAllOk none).2 = Except.ok ⟨false, false, 3, 7, 9⟩ ∧
    ¬ (∀ s : Session, (Session.create kAllOk none).2 = Except.ok s →
        s.controller = false → s.session = 0 ∧ s.urls = 0) := by
  refine ⟨rfl, fun hAll => ?_⟩
  have h7 := (hAll ⟨false, false, 3, 7, 9⟩ rfl rfl).1
  exact absurd h7 (by decide)

/-- Claim C5 as amended: every session produced by `Session::open` has
`controller = false` and zero session/URL-group ids, while
`Session::create` sets `controller` exactly when a name was given and
always stores the kernel-assigned session and URL-group ids, whether or
not it is a controller. -/
theorem open_zero_ids_create_kernel_ids :
    (∀ (k : Kernel) (name : String) (s : Session),
      (Session.openExisting k name).2 = Except.ok s →
      s.controller = false ∧ s.session = 0 ∧ s.urls = 0) ∧
    (∀ (k : Kernel) (name : Option String) (s : Session),
      (Session.create k name).2 = Except.ok s →
      s.controller = name.isSome ∧ s.session = k.sessionId ∧ s.urls = k.urlGroupId) := by
  constructor
  · intro k name s h
    simp only [Session.openExisting] at h
    split_ifs at h
    simp_all
    subst h
    exact ⟨rfl, rfl, rfl⟩
  · intro k name s h
    simp only [Session.create] at h
    split_ifs at h <;> simp_all
    all_goals subst h
    all_goals simp_all

/-- Witness for the amended C5: concrete successful `open` and `create`
runs under `kAllOk`. -/
theorem open_zero_ids_create_kernel_ids_witness :
    ((⟨false, false, 3, 0, 0⟩ : Session).controller = false ∧
      (⟨false, false, 3, 0, 0⟩ : Session).session = 0 ∧
      (⟨false, false, 3, 0, 0⟩ : Session).urls = 0) ∧
    ((⟨false, true, 3, 7, 9⟩ : Session).controller = (some "q").isSome ∧
      (⟨false, true, 3, 7, 9⟩ : Session).session = kAllOk.sessionId ∧
      (⟨false, true, 3, 7, 9⟩ : Session).urls = kAllOk.urlGroupId) :=
  ⟨open_zero_ids_create_kernel_ids.1 kAllOk "q" ⟨false, false, 3, 0, 0⟩ rfl,
   open_zero_ids_create_kernel_ids.2 kAllOk (some "q") ⟨false, true, 3, 7, 9⟩ rfl⟩

/-- A fully successful request head: code 0, not partial, request id 1,
verb 4 (GET), HTTP version 1.1, no custom verb, url or headers. -/
def headOk : HeadResult :=
  { err := 0, more := false, requestId := 1, verb := 4,
    versionMajor := 1, versionMinor := 1,
    customVerb := none, rawUrl := none, knownHeaders := [], unknownHeaders := [] }

/-- Claim C6, evaluated at the failing input: for the successful head
`headOk` (code 0, more false), the translated result holds the version
string `"1.1"` under the key `"verb"` — the second `obj.set` to `"verb"`
overwrote the numeric method identifier — and no `"version"` key exists,
contradicting the claim that both fields are present under distinct
keys. -/
theorem head_translation_overwrites_verb :
    jget (translateHead headOk) "verb" = some (JVal.str "1.1") ∧
    jget (translateHead headOk) "version" = none ∧
    jget (translateHead headOk) "code" = some (JVal.num 0) ∧
    jget (translateHead headOk) "more" = some (JVal.boolean false) := by
  refine ⟨rfl, rfl, rfl, rfl⟩

/-- Claim C7, evaluated at the failing input: under `kAddUrlFail` the
only kernel call `Session::listen` performs is `HttpAddUrlToUrlGroup`
(which fails with code 5), yet the returned error names
`"HttpSetUrlGroupProperty"` — a call that was never made — so the error
does not carry the name of the call that failed. -/
theorem listen_error_names_wrong_call :
    (Session.listen kAddUrlFail sessionExample "http://x:8080/").1 =
      [KCall.httpAddUrlToUrlGroup 9] ∧
    (Session.listen kAddUrlFail sessionExample "http://x:8080/").2 =
      Except.error ⟨"HttpSetUrlGroupProperty", 5⟩ ∧
    (⟨"HttpSetUrlGroupProperty", 5⟩ : WinError).call ≠ "HttpAddUrlToUrlGroup" := by
  refine ⟨rfl, rfl, by decide⟩

/-- Claim C8, counterexample: the worker session obtained from
`Session::open` under `kAllOk` does issue `HttpCloseUrlGroup` and
`HttpCloseServerSession` on `close()` — with the stored null identifier
0 — refuting the claim that close on a worker never invokes those
calls. -/
theorem worker_close_issues_null_session_calls :
    (Session.openExisting kAllOk "shared").2 = Except.ok ⟨false, false, 3, 0, 0⟩ ∧
    (Session.close ⟨false, false, 3, 0, 0⟩).2 =
      [KCall.httpCloseUrlGroup 0, KCall.httpCloseServerSession 0, KCall.closeHandle 3] ∧
    KCall.httpCloseUrlGroup 0 ∈ (Session.close ⟨false, false, 3, 0, 0⟩).2 ∧
    KCall.httpCloseServerSession 0 ∈ (Session.close ⟨false, false, 3, 0, 0⟩).2 := by
  refine ⟨rfl, rfl, by decide, by decide⟩

/-- Claim C8 as amended: on a worker session produced by `Session::open`,
`close()` issues `HttpCloseUrlGroup` and `HttpCloseServerSession` only
with the null identifier 0 the worker stores — no URL-group or
server-session object is named — and the one release of an owned
resource is `CloseHandle` on the worker's queue handle. -/
theorem worker_close_releases_queue_only (k : Kernel) (name : String) (s : Session)
    (h : (Session.openExisting k name).2 = Except.ok s) :
    s.urls = 0 ∧ s.session = 0 ∧
    (Session.close s).2 =
      [KCall.httpCloseUrlGroup 0, KCall.httpCloseServerSession 0,
       KCall.closeHandle s.queue] := by
  simp only [Session.openExisting] at h
  split_ifs at h
  simp_all
  subst h
  exact ⟨rfl, rfl, rfl⟩

/-- Witness for the amended C8: the concrete worker session opened under
`kAllOk`. -/
theorem worker_close_releases_queue_only_witness :
    (⟨false, false, 3, 0, 0⟩ : Session).urls = 0 ∧
    (⟨false, false, 3, 0, 0⟩ : Session).session = 0 ∧
    (Session.close ⟨false, false, 3, 0, 0⟩).2 =
      [KCall.httpCloseUrlGroup 0, KCall.httpCloseServerSession 0, KCall.closeHandle 3] :=
  worker_close_releases_queue_only kAllOk "shared" ⟨false, false, 3, 0, 0⟩ rfl

end HttpSvc
